import Mathlib

/-!
Shallow embedding of the pygon error-handling core:
`src/types/result_types.py` (PygonError, its renderings, the category
constructors) and `src/examples/user_service.py` (validation, creation and
lookup call sites), with theorems checking the specification's claims.

Python dynamic values stored in `context`/`metadata` dictionaries are
embedded as the variant type `PyVal`; dictionaries as association lists
(insertion order preserved, matching Python dict semantics).  The ambient
effects of error construction (clock read for `timestamp`, stack
introspection for `source_location`) are threaded as explicit `now`/`loc`
string parameters.
-/

/-- Embedding of the dynamic Python values stored in error context/metadata
dictionaries: strings, integers, booleans and lists thereof. -/
inductive PyVal where
  | str (s : String)
  | int (n : Int)
  | bool (b : Bool)
  | list (xs : List PyVal)

mutual

/-- Python `repr` of an embedded dynamic value (strings in single quotes,
`True`/`False` for booleans, `[...]` for lists). -/
def pyRepr : PyVal → String
  | .str s => "'" ++ s ++ "'"
  | .int n => toString n
  | .bool b => if b then "True" else "False"
  | .list xs => "[" ++ String.intercalate ", " (pyReprList xs) ++ "]"

/-- `repr` of each element of a list of dynamic values. -/
def pyReprList : List PyVal → List String
  | [] => []
  | x :: xs => pyRepr x :: pyReprList xs

end

/-- A Python dict with string keys and dynamic values, in insertion order. -/
abbrev PyDict := List (String × PyVal)

/-- Python `repr` of a dict: `{'k': v, ...}` in insertion order. -/
def pyDictRepr (d : PyDict) : String :=
  "\x7b" ++ String.intercalate ", " (d.map fun kv => "'" ++ kv.1 ++ "': " ++ pyRepr kv.2) ++ "\x7d"

/-- `pat` occurs at the head of `s` (character-list prefix test). -/
def charsStartWith : List Char → List Char → Bool
  | [], _ => true
  | _ :: _, [] => false
  | p :: ps, c :: cs => p == c && charsStartWith ps cs

/-- `pat` occurs somewhere inside `s` (character-list substring test). -/
def charsHaveSub (pat : List Char) : List Char → Bool
  | [] => pat.isEmpty
  | c :: rest => charsStartWith pat (c :: rest) || charsHaveSub pat rest

/-- Python's `pat in s` substring test on embedded strings. -/
def strContains (s pat : String) : Bool :=
  charsHaveSub pat.data s.data

/-- The default whitespace set stripped by Python's `str.strip()`. -/
def isPySpace (c : Char) : Bool :=
  c == ' ' || c == '\t' || c == '\n' || c == '\r' || c == '\x0b' || c == '\x0c'

/-- Python's `s.strip()`: drop leading and trailing whitespace. -/
def pyStrip (s : String) : String :=
  ⟨((s.data.dropWhile isPySpace).reverse.dropWhile isPySpace).reverse⟩

/-- Python's `str.lower()` on one character (the embedding domain is ASCII). -/
def pyCharLower (c : Char) : Char :=
  if 'A' ≤ c && c ≤ 'Z' then Char.ofNat (c.toNat + 32) else c

/-- Python's `s.lower()`: lowercase every character. -/
def pyLower (s : String) : String :=
  ⟨s.data.map pyCharLower⟩

/-- Embedding of the frozen dataclass `PygonError` from
`src/types/result_types.py`.  The `cause` exception is embedded as its
rendered string (`str(exception)`), present exactly when a cause was
attached. -/
structure PygonError where
  error_type : String
  message : String
  context : PyDict := []
  timestamp : String := ""
  source_location : String := ""
  metadata : PyDict := []
  cause : Option String := none

/-- `PygonError.to_string`: `f"{self.error_type}: {self.message}"`. -/
def PygonError.to_string (e : PygonError) : String :=
  e.error_type ++ ": " ++ e.message

/-- `PygonError.to_detailed_string`: four unconditional segments, then
`Context`/`Metadata` when the dict is truthy (non-empty) and `Cause` when a
cause is attached, joined by `" | "`. -/
def PygonError.to_detailed_string (e : PygonError) : String :=
  let details := ["Error: " ++ e.error_type, "Message: " ++ e.message,
                  "Timestamp: " ++ e.timestamp, "Source: " ++ e.source_location]
  let details := if e.context.isEmpty then details
                 else details ++ ["Context: " ++ pyDictRepr e.context]
  let details := if e.metadata.isEmpty then details
                 else details ++ ["Metadata: " ++ pyDictRepr e.metadata]
  let details := match e.cause with
                 | none => details
                 | some c => details ++ ["Cause: " ++ c]
  String.intercalate " | " details

/-- A method call on a frozen dataclass, threaded as explicit state: the
receiver is returned unchanged alongside the rendered string (the body of
`to_string` only reads `error_type` and `message`). -/
def to_string_call (e : PygonError) : String × PygonError :=
  (e.to_string, e)

/-- `create_validation_error` from `src/types/result_types.py`; `now`/`loc`
are the ambient clock and call-site captured by the dataclass defaults. -/
def create_validation_error (now loc : String) (message : String)
    (context : PyDict) (metadata : PyDict) : PygonError :=
  { error_type := "validation_error", message := message, context := context,
    timestamp := now, source_location := loc, metadata := metadata, cause := none }

/-- `create_not_found_error` from `src/types/result_types.py`. -/
def create_not_found_error (now loc : String) (message : String)
    (context : PyDict) (metadata : PyDict) : PygonError :=
  { error_type := "not_found_error", message := message, context := context,
    timestamp := now, source_location := loc, metadata := metadata, cause := none }

/-- The `User` dataclass from `src/examples/user_service.py`. -/
structure User where
  id : Int
  name : String
  email : String
deriving DecidableEq

/-- `validate_email` from `src/examples/user_service.py`: empty check, then
`"@" not in email` check, each building a rich validation error. -/
def validate_email (now loc : String) (email : String)
    (field_name : String := "email") : Bool × Option PygonError :=
  if email = "" then
    (false, some (create_validation_error now loc "email is required"
      [("field_name", .str field_name), ("provided_value", .str email),
       ("validation_step", .str "required_check")]
      [("validation_rule", .str "non_empty"),
       ("expected_type", .str "non-empty string")]))
  else if !(strContains email "@") then
    (false, some (create_validation_error now loc "invalid email format"
      [("field_name", .str field_name), ("provided_value", .str email),
       ("validation_step", .str "format_check")]
      [("validation_rule", .str "contains_at_symbol"),
       ("expected_format", .str "user@domain.com"),
       ("provided_length", .int email.length)]))
  else
    (true, none)

/-- `validate_email_legacy` from `src/examples/user_service.py`. -/
def validate_email_legacy (email : String) : Bool × Option String :=
  if email = "" then
    (false, some "validation_error: email is required")
  else if !(strContains email "@") then
    (false, some "validation_error: invalid email format")
  else
    (true, none)

/-- `validate_user_data` from `src/examples/user_service.py`: accumulates
errors from the name-required, name-length and email checks; the
email-format check is the `elif` arm of the email-required check. -/
def validate_user_data (now loc : String) (name email : String)
    (form_context : String := "user_registration") : Bool × List PygonError :=
  let errors : List PygonError := []
  let errors := if (pyStrip name) = "" then
      errors ++ [create_validation_error now loc "name is required"
        [("field_name", .str "name"), ("form_context", .str form_context),
         ("provided_value", .str (pyRepr (.str name))),
         ("validation_step", .str "required_check")]
        [("validation_rule", .str "non_empty_after_strip"),
         ("original_length", .int name.length),
         ("stripped_length", .int (pyStrip name).length)]]
    else errors
  let errors := if name.length > 50 then
      errors ++ [create_validation_error now loc "name must be 50 characters or less"
        [("field_name", .str "name"), ("form_context", .str form_context),
         ("provided_length", .int name.length),
         ("validation_step", .str "length_check")]
        [("validation_rule", .str "max_length"), ("max_allowed", .int 50),
         ("actual_length", .int name.length)]]
    else errors
  let errors := if email = "" then
      errors ++ [create_validation_error now loc "email is required"
        [("field_name", .str "email"), ("form_context", .str form_context),
         ("provided_value", .str email),
         ("validation_step", .str "required_check")]
        [("validation_rule", .str "non_empty"),
         ("expected_type", .str "non-empty string")]]
    else if !(strContains email "@") then
      errors ++ [create_validation_error now loc "invalid email format"
        [("field_name", .str "email"), ("form_context", .str form_context),
         ("provided_value", .str email),
         ("validation_step", .str "format_check")]
        [("validation_rule", .str "contains_at_symbol"),
         ("expected_format", .str "user@domain.com"),
         ("provided_length", .int email.length)]]
    else errors
  (errors.length == 0, errors)

/-- `validate_user_data_legacy` from `src/examples/user_service.py`. -/
def validate_user_data_legacy (name email : String) : Bool × List String :=
  let errors : List String := []
  let errors := if (pyStrip name) = "" then
      errors ++ ["validation_error: name is required"] else errors
  let errors := if name.length > 50 then
      errors ++ ["validation_error: name must be 50 characters or less"] else errors
  let errors := if email = "" then
      errors ++ ["validation_error: email is required"]
    else if !(strContains email "@") then
      errors ++ ["validation_error: invalid email format"]
    else errors
  (errors.length == 0, errors)

/-- Modelled from the spec: the multi-error contract of spec section 4.3 as
literally worded — all four declared checks (name-required, name-length,
email-required, email-format) run unconditionally in declared order, each
appending at most one error.  Used to compare the spec's wording against
`validate_user_data`, whose email-format check is conditional. -/
def validate_user_data_unconditional (now loc : String) (name email : String)
    (_form_context : String := "user_registration") : Bool × List PygonError :=
  let errors : List PygonError := []
  let errors := if (pyStrip name) = "" then
      errors ++ [create_validation_error now loc "name is required" [] []]
    else errors
  let errors := if name.length > 50 then
      errors ++ [create_validation_error now loc "name must be 50 characters or less" [] []]
    else errors
  let errors := if email = "" then
      errors ++ [create_validation_error now loc "email is required" [] []]
    else errors
  let errors := if !(strContains email "@") then
      errors ++ [create_validation_error now loc "invalid email format" [] []]
    else errors
  (errors.length == 0, errors)

/-- `create_user` from `src/examples/user_service.py`: validates via the
multi-error pattern, on failure collapses the error list into one rich
validation error, on success builds the user with `id=1`, stripped name and
lowercased email. -/
def create_user (now loc : String) (name email : String)
    (context : String := "api_registration") : Option User × Option PygonError :=
  let vr := validate_user_data now loc name email context
  if !vr.1 then
    let error_messages := vr.2.map (fun e => e.message)
    (none, some (create_validation_error now loc
      ("User creation failed: " ++ String.intercalate ", " error_messages)
      [("operation", .str "create_user"), ("context", .str context),
       ("provided_name", .str name), ("provided_email", .str email),
       ("validation_error_count", .int vr.2.length)]
      [("validation_errors", .list (vr.2.map (fun e => .str e.to_string))),
       ("operation_type", .str "user_creation")]))
  else
    (some { id := 1, name := (pyStrip name), email := pyLower email }, none)

/-- `find_user_by_email` from `src/examples/user_service.py`: validates the
email, then scans for the first user whose email equals the lowercased
query, else builds a rich not-found error. -/
def find_user_by_email (now loc : String) (users : List User) (email : String)
    (search_context : String := "user_lookup") : Option User × Option PygonError :=
  let vr := validate_email now loc email "search_email"
  match vr.2 with
  | some e => (none, some e)
  | none =>
    let normalized_email := pyLower email
    match users.find? (fun u => u.email == normalized_email) with
    | some u => (some u, none)
    | none =>
      (none, some (create_not_found_error now loc "user not found"
        [("operation", .str "find_user_by_email"),
         ("search_context", .str search_context),
         ("searched_email", .str email),
         ("normalized_email", .str normalized_email),
         ("total_users_searched", .int users.length)]
        [("available_emails", .list (users.map (fun u => .str u.email))),
         ("search_method", .str "email_lookup"),
         ("case_sensitive", .bool false)]))

/-- Modelled from the spec: the tagged result wrapper `Outcome<T>` of spec
sections 2 and 3 — `Success(T)` or `Failure(ErrorValue)`, never both, never
neither.  No combinator module exists under `src/`; only the tuple-shaped
aliases appear there. -/
inductive Outcome (α : Type) where
  | success (value : α)
  | failure (error : PygonError)

/-- Modelled from the spec: `and_then(Outcome<A>, f: A -> Outcome<B>)` of
spec section 4.2 — on success invokes `f` and returns its Outcome, on
failure returns the original failure without invoking `f`. -/
def and_then {α β : Type} : Outcome α → (α → Outcome β) → Outcome β
  | .success a, f => f a
  | .failure e, _ => .failure e

/-- C6: `to_string()` returns exactly `"<category>: <message>"` for every
error, ignoring all other fields; in particular a validation error with
message "email is required" renders as
"validation_error: email is required". -/
theorem C6_to_string_format (now loc : String) (e : PygonError) :
    e.to_string = e.error_type ++ ": " ++ e.message
    ∧ (create_validation_error now loc "email is required"
        [("field_name", .str "email")] []).to_string
      = "validation_error: email is required" :=
  ⟨rfl, rfl⟩

/-- C8: a `to_string()` call is deterministic and mutation-free on a fixed
ErrorValue: the receiver (every field, in particular the timestamp) is
returned unchanged, and a second call on that returned receiver renders the
identical string. -/
theorem C8_to_string_idempotent (e : PygonError) :
    (to_string_call e).2 = e
    ∧ (to_string_call e).2.timestamp = e.timestamp
    ∧ (to_string_call ((to_string_call e).2)).1 = (to_string_call e).1 :=
  ⟨rfl, rfl, rfl⟩

/-- C3: `and_then` returns `f`'s Outcome on success and on failure returns
the original failure untouched for every continuation `f` — in particular
its result on a failure is independent of `f`, so no effect of `f` is
observable. -/
theorem C3_and_then_short_circuit {α β : Type} :
    (∀ (a : α) (f : α → Outcome β), and_then (.success a) f = f a)
    ∧ (∀ (e : PygonError) (f : α → Outcome β), and_then (.failure e) f = .failure e)
    ∧ (∀ (e : PygonError) (f g : α → Outcome β),
        and_then (.failure e) f = and_then (.failure e) g) :=
  ⟨fun _ _ => rfl, fun _ _ => rfl, fun _ _ _ => rfl⟩

/-- C4: both multi-error validators return a validity flag that is true
exactly when the returned error list is empty. -/
theorem C4_valid_iff_no_errors (now loc name email form_context : String) :
    (validate_user_data now loc name email form_context).1
      = ((validate_user_data now loc name email form_context).2.length == 0)
    ∧ (validate_user_data_legacy name email).1
      = ((validate_user_data_legacy name email).2.length == 0) :=
  ⟨rfl, rfl⟩

/-- C1: `validate_email` succeeds as `(true, none)` exactly on non-empty
strings containing '@'; the empty string fails with a validation_error
"email is required"; a non-empty string without '@' fails with a
validation_error "invalid email format". -/
theorem C1_validate_email_cases (now loc email : String) :
    (email ≠ "" → strContains email "@" = true →
      validate_email now loc email = (true, none))
    ∧ (email = "" →
      ∃ e, validate_email now loc email = (false, some e)
        ∧ e.error_type = "validation_error" ∧ e.message = "email is required")
    ∧ (email ≠ "" → strContains email "@" = false →
      ∃ e, validate_email now loc email = (false, some e)
        ∧ e.error_type = "validation_error" ∧ e.message = "invalid email format") := by
  refine ⟨fun h1 h2 => ?_, fun h0 => ?_, fun h1 h2 => ?_⟩
  · simp [validate_email, h1, h2]
  · subst h0
    exact ⟨_, rfl, rfl, rfl⟩
  · simp only [validate_email, if_neg h1, h2, Bool.not_false, if_true]
    exact ⟨_, rfl, rfl, rfl⟩

/-- C1 witness: the three cases at the concrete inputs "a@b.com", "" and
"not-an-email". -/
theorem C1_validate_email_cases_witness :
    validate_email "t0" "l0" "a@b.com" = (true, none)
    ∧ (∃ e, validate_email "t0" "l0" "" = (false, some e)
        ∧ e.error_type = "validation_error" ∧ e.message = "email is required")
    ∧ (∃ e, validate_email "t0" "l0" "not-an-email" = (false, some e)
        ∧ e.error_type = "validation_error" ∧ e.message = "invalid email format") :=
  ⟨(C1_validate_email_cases "t0" "l0" "a@b.com").1 (by decide) (by decide),
   (C1_validate_email_cases "t0" "l0" "").2.1 rfl,
   (C1_validate_email_cases "t0" "l0" "not-an-email").2.2 (by decide) (by decide)⟩

/-- C9: the legacy email validator refines the rich one via the string
projection: same validity flag for every input, and the legacy error arm is
exactly the rich error arm mapped through `to_string`. -/
theorem C9_legacy_refines_rich (now loc email : String) :
    (validate_email_legacy email).1 = (validate_email now loc email).1
    ∧ (validate_email_legacy email).2
      = ((validate_email now loc email).2).map PygonError.to_string := by
  by_cases h0 : email = ""
  · subst h0
    exact ⟨rfl, rfl⟩
  · by_cases h2 : strContains email "@"
    · simp [validate_email, validate_email_legacy, h0, h2]
    · simp only [Bool.not_eq_true] at h2
      simp [validate_email, validate_email_legacy, h0, h2,
            PygonError.to_string, create_validation_error]

/-- C2 counterexample: on `name=""`, `email=""` the code produces exactly
two errors, while running all four declared checks unconditionally (as the
claim words it) would also fire the email-format check — `"@" not in ""` is
true in Python — and produce three. -/
theorem C2_counterexample :
    (validate_user_data "t0" "l0" "" "" "user_registration").2.map (fun e => e.message)
      = ["name is required", "email is required"]
    ∧ (validate_user_data_unconditional "t0" "l0" "" "" "user_registration").2.map
        (fun e => e.message)
      = ["name is required", "email is required", "invalid email format"] :=
  ⟨rfl, rfl⟩

/-- C2 amended: the name-required, name-length and email-required checks
run unconditionally, but the email-format check runs only when the email is
non-empty (it is the `elif` arm of the email-required check); the error
list follows the declared check order, and validating `name=""`,
`email=""` yields exactly the two errors "name is required" then
"email is required". -/
theorem C2_check_order (now loc name email form_context : String) :
    (validate_user_data now loc name email form_context).2.map (fun e => e.message)
      = (if pyStrip name = "" then ["name is required"] else [])
        ++ (if name.length > 50 then ["name must be 50 characters or less"] else [])
        ++ (if email = "" then ["email is required"]
            else if !(strContains email "@") then ["invalid email format"] else [])
    ∧ (validate_user_data now loc "" "" form_context).2.map (fun e => e.message)
      = ["name is required", "email is required"] := by
  constructor
  · by_cases h1 : pyStrip name = "" <;> by_cases h2 : name.length > 50 <;>
      by_cases h3 : email = "" <;> by_cases h4 : strContains email "@" <;>
      simp [validate_user_data, create_validation_error, h1, h2, h3, h4]
  · rfl

/-- Rendering following the spec's words for `to_detailed_string`: the
segment list is Error, Message, Timestamp, Source in fixed order, then the
Context, Metadata and Cause segments each included exactly when the
corresponding field is non-empty, joined by `" | "`. -/
def detailed_string_spec (e : PygonError) : String :=
  String.intercalate " | "
    (["Error: " ++ e.error_type, "Message: " ++ e.message,
      "Timestamp: " ++ e.timestamp, "Source: " ++ e.source_location]
     ++ (if e.context.isEmpty then [] else ["Context: " ++ pyDictRepr e.context])
     ++ (if e.metadata.isEmpty then [] else ["Metadata: " ++ pyDictRepr e.metadata])
     ++ (match e.cause with | none => [] | some c => ["Cause: " ++ c]))

/-- C5: `to_detailed_string` renders exactly the spec's segment sequence —
fixed order, optional segments present iff the field is non-empty — and
for an error built with context mapping "field_name" to "email" the output
contains "Context: " followed by a rendering containing field_name. -/
theorem C5_detailed_string_segments (e : PygonError) :
    e.to_detailed_string = detailed_string_spec e
    ∧ strContains ((create_validation_error "t0" "l0" "email is required"
        [("field_name", .str "email")] []).to_detailed_string)
        "Context: \x7b'field_name': 'email'\x7d" = true := by
  constructor
  · unfold PygonError.to_detailed_string detailed_string_spec
    by_cases hc : e.context.isEmpty <;> by_cases hm : e.metadata.isEmpty <;>
      cases e.cause <;> simp [hc, hm]
  · rfl

/-- C7: looking up a valid email (non-empty, containing '@') that matches
no user's email after lowercasing returns `(None, e)` with a
not_found_error whose context records the total count of users searched and
whose metadata lists every searched user's email. -/
theorem C7_find_user_not_found (now loc : String) (users : List User)
    (email search_context : String)
    (h1 : email ≠ "") (h2 : strContains email "@" = true)
    (h3 : ∀ u ∈ users, u.email ≠ pyLower email) :
    ∃ e, find_user_by_email now loc users email search_context = (none, some e)
      ∧ e.error_type = "not_found_error"
      ∧ List.lookup "total_users_searched" e.context = some (PyVal.int users.length)
      ∧ List.lookup "available_emails" e.metadata
        = some (PyVal.list (users.map (fun u => PyVal.str u.email))) := by
  have hv : (validate_email now loc email "search_email").2 = none := by
    simp [validate_email, h1, h2]
  have hf : users.find? (fun u => u.email == pyLower email) = none := by
    rw [List.find?_eq_none]
    intro u hu
    simpa using h3 u hu
  refine ⟨create_not_found_error now loc "user not found"
      [("operation", .str "find_user_by_email"),
       ("search_context", .str search_context),
       ("searched_email", .str email),
       ("normalized_email", .str (pyLower email)),
       ("total_users_searched", .int users.length)]
      [("available_emails", .list (users.map (fun u : User => PyVal.str u.email))),
       ("search_method", .str "email_lookup"),
       ("case_sensitive", .bool false)], ?_, rfl, rfl, rfl⟩
  simp only [find_user_by_email, hv, hf]

/-- C7 witness: the not-present lookup "nonexistent@example.com" over the
two-user set from the repository's own demonstration. -/
theorem C7_find_user_not_found_witness :
    ∃ e, find_user_by_email "t0" "l0"
        [{ id := 1, name := "Alice", email := "alice@example.com" },
         { id := 2, name := "Bob", email := "bob@example.com" }]
        "nonexistent@example.com" "admin_search" = (none, some e)
      ∧ e.error_type = "not_found_error"
      ∧ List.lookup "total_users_searched" e.context = some (PyVal.int 2)
      ∧ List.lookup "available_emails" e.metadata
        = some (PyVal.list [PyVal.str "alice@example.com", PyVal.str "bob@example.com"]) :=
  C7_find_user_not_found "t0" "l0"
    [{ id := 1, name := "Alice", email := "alice@example.com" },
     { id := 2, name := "Bob", email := "bob@example.com" }]
    "nonexistent@example.com" "admin_search" (by decide) (by decide) (by decide)

/-- C10: `create_user` succeeds exactly when the multi-error validation
passes, returning the user with id 1, stripped name and lowercased email;
on failure it returns a validation_error whose context records the number
of underlying validation errors under "validation_error_count". -/
theorem C10_create_user_shape (now loc name email context : String) :
    ((validate_user_data now loc name email context).1 = true →
      create_user now loc name email context
        = (some { id := 1, name := pyStrip name, email := pyLower email }, none))
    ∧ ((validate_user_data now loc name email context).1 = false →
      ∃ e, create_user now loc name email context = (none, some e)
        ∧ e.error_type = "validation_error"
        ∧ List.lookup "validation_error_count" e.context
          = some (PyVal.int (validate_user_data now loc name email context).2.length)) := by
  constructor
  · intro h
    simp [create_user, h]
  · intro h
    refine ⟨create_validation_error now loc
        ("User creation failed: " ++ String.intercalate ", "
          ((validate_user_data now loc name email context).2.map (fun e => e.message)))
        [("operation", .str "create_user"), ("context", .str context),
         ("provided_name", .str name), ("provided_email", .str email),
         ("validation_error_count", .int (validate_user_data now loc name email context).2.length)]
        [("validation_errors",
          .list ((validate_user_data now loc name email context).2.map (fun e => .str e.to_string))),
         ("operation_type", .str "user_creation")], ?_, rfl, rfl⟩
    simp only [create_user, h, Bool.not_false, if_true]

/-- C10 witness: a passing input " Bob "/"B@X.com" and a failing input
""/"" at concrete timestamps. -/
theorem C10_create_user_shape_witness :
    create_user "t0" "l0" " Bob " "B@X.com" "ctx"
      = (some { id := 1, name := pyStrip " Bob ", email := pyLower "B@X.com" }, none)
    ∧ ∃ e, create_user "t0" "l0" "" "" "ctx" = (none, some e)
        ∧ e.error_type = "validation_error"
        ∧ List.lookup "validation_error_count" e.context
          = some (PyVal.int (validate_user_data "t0" "l0" "" "" "ctx").2.length) :=
  ⟨(C10_create_user_shape "t0" "l0" " Bob " "B@X.com" "ctx").1 (by decide),
   (C10_create_user_shape "t0" "l0" "" "" "ctx").2 (by decide)⟩
